import Mathlib

/-!
Verification development for the header src/src/macros.hpp of the
lahar-text-editor repository.

The header defines three preprocessor macros:

* ENSURE_INIT(ptr) — in a debug build (NDEBUG undefined) it expands to
    ((ptr) ? void()
           : (fprintf(stderr, "[%s:%d] Uninitialised pointer: %s (value=%p)\n",
                      __FILE__, __LINE__, #ptr, static_cast<const void *>(ptr)),
              std::abort()))
  and in a release build (NDEBUG defined) it expands to (void)0.

* EXPECTED_VOID(expr) — a GNU statement expression that binds
  std::expected<void, std::string> expected = (expr); on error it prints the
  error message with std::println (message plus a trailing newline on the
  standard output stream) and calls std::exit(1); on success it does nothing.

* NOEXCEPT — expands to the keyword noexcept when NOEXCEPT_ENABLED is NOT
  defined, and to nothing when NOEXCEPT_ENABLED IS defined.

Shallow embedding.  An argument expression of a macro is modelled as a
stateful computation, a function from a state to a pair of the next state
and the produced value, so that the number of times a macro expansion
evaluates its argument is observable as the number of times the function is
applied.  The observable behaviour of one macro expansion is an Effects
record: the text written to the standard output stream, the text written to
the error stream, and the process outcome (continue, normal exit with a
status code, or abnormal abort).
-/

/-- Process outcome of executing one macro expansion: execution continues,
the process exits normally with a status code, or the process aborts
abnormally. -/
inductive Outcome where
  | next : Outcome
  | exited : Nat → Outcome
  | aborted : Outcome
deriving DecidableEq, Repr

/-- Observable effects of executing one macro expansion: text written to the
standard output stream, text written to the error stream, and the process
outcome. -/
structure Effects where
  stdout : String
  stderr : String
  outcome : Outcome
deriving DecidableEq, Repr

/-- No observable effect: nothing printed, execution continues. -/
def noEffect : Effects :=
  { stdout := "", stderr := "", outcome := Outcome.next }

/-- Rendering of a pointer value as the %p conversion of fprintf prints it on
the reference platform: a null pointer prints as (nil), a non-null address as
0x followed by its hexadecimal digits.  A pointer value is modelled as a
natural number, 0 being the null pointer. -/
def ptrFmt (p : Nat) : String :=
  if p = 0 then "(nil)" else "0x" ++ String.mk (Nat.toDigits 16 p)

/-- The diagnostic line produced by the fprintf call in the debug expansion of
ENSURE_INIT, from the format string
"[%s:%d] Uninitialised pointer: %s (value=%p)\n" applied to __FILE__,
__LINE__, the stringised argument expression, and the pointer value. -/
def ensureInitDiag (file : String) (line : Nat) (exprText : String) (value : Nat) : String :=
  "[" ++ file ++ ":" ++ toString line ++ "] Uninitialised pointer: " ++ exprText ++
    " (value=" ++ ptrFmt value ++ ")\n"

/-- Debug expansion of ENSURE_INIT (src/src/macros.hpp lines 6-10, active when
NDEBUG is undefined).  The conditional operator evaluates the argument once;
when the value is non-null the expansion is void() and nothing further
happens.  When the value is null, the fprintf argument
static_cast<const void *>(ptr) evaluates the argument a second time, the
diagnostic line is written to the error stream with the value obtained by
that second evaluation, and std::abort() is called. -/
def ENSURE_INIT_debug {σ : Type} (file : String) (line : Nat) (exprText : String)
    (ptr : σ → σ × Nat) (s : σ) : σ × Effects :=
  if (ptr s).2 ≠ 0 then
    ((ptr s).1, noEffect)
  else
    ((ptr (ptr s).1).1,
      { stdout := ""
        stderr := ensureInitDiag file line exprText (ptr (ptr s).1).2
        outcome := Outcome.aborted })

/-- Release expansion of ENSURE_INIT (src/src/macros.hpp line 12, active when
NDEBUG is defined): the expansion is the token sequence (void)0, which does
not contain the argument at all, so the argument is never evaluated and
nothing happens. -/
def ENSURE_INIT_release {σ : Type} (ptr : σ → σ × Nat) (s : σ) : σ × Effects :=
  (s, noEffect)

/-- Expansion of EXPECTED_VOID (src/src/macros.hpp lines 15-22).  The
statement expression initialises a local variable from the argument, a single
evaluation.  If the result holds an error, std::println writes the error
message followed by a newline to the standard output stream and std::exit(1)
terminates the process with status 1; otherwise nothing happens. -/
def EXPECTED_VOID {σ : Type} (expr : σ → σ × Except String Unit) (s : σ) : σ × Effects :=
  match (expr s).2 with
  | Except.ok _ => ((expr s).1, noEffect)
  | Except.error e =>
      ((expr s).1,
        { stdout := e ++ "\n", stderr := "", outcome := Outcome.exited 1 })

/-- The exception specification a declaration carries after macro expansion:
either the non-throwing guarantee (the keyword noexcept) or no specification
at all (the macro expanded to nothing, the declaration's error behaviour is
unspecified). -/
inductive ExceptionSpec where
  | noexceptSpec : ExceptionSpec
  | unspecified : ExceptionSpec
deriving DecidableEq, Repr

/-- Expansion of NOEXCEPT (src/src/macros.hpp lines 24-28).  The Boolean
argument states whether the build flag NOEXCEPT_ENABLED is defined.  When it
is NOT defined, NOEXCEPT expands to the keyword noexcept; when it IS defined,
NOEXCEPT expands to nothing. -/
def NOEXCEPT (noexcept_enabled : Bool) : ExceptionSpec :=
  if noexcept_enabled then ExceptionSpec.unspecified else ExceptionSpec.noexceptSpec

/-- Result of invoking a routine: a normal return, a failure that propagates
out of the routine where a diagnostic wrapper can intercept it, or abnormal
process termination. -/
inductive InvokeResult where
  | value : InvokeResult
  | raised : String → InvokeResult
  | terminated : InvokeResult
deriving DecidableEq, Repr

/-- Modelled from the spec: the repository contains only the macro
definitions and no call site of NOEXCEPT, so the runtime meaning of the
exception specification attached to a declaration is code missing from src/.
Following the spec (section 4.3: the annotation asserts the declaration is
guaranteed not to raise an error, and disabling the guarantee is what allows
diagnostic wrapping to intercept failures, together with the platform meaning
of the non-throwing guarantee), invoking a routine whose body raises
terminates the process abnormally when the non-throwing guarantee is
declared, and lets the failure propagate to an interceptor when the
specification is absent; a body that returns normally returns normally under
either specification. -/
def invoke (spec : ExceptionSpec) (body : Except String Unit) : InvokeResult :=
  match body, spec with
  | Except.ok _, _ => InvokeResult.value
  | Except.error _, ExceptionSpec.noexceptSpec => InvokeResult.terminated
  | Except.error e, ExceptionSpec.unspecified => InvokeResult.raised e

/-- Claim C1: for every argument computation whose resulting value carries an
error with message M, EXPECTED_VOID prints exactly M followed by a newline to
the standard output stream, writes nothing to the error stream, and
terminates the process via normal exit with status code 1; the only state
change is the single evaluation of the argument itself. -/
theorem expected_void_error_prints_and_exits {σ : Type}
    (expr : σ → σ × Except String Unit) (s : σ) (M : String)
    (h : (expr s).2 = Except.error M) :
    EXPECTED_VOID expr s =
      ((expr s).1,
        { stdout := M ++ "\n", stderr := "", outcome := Outcome.exited 1 }) := by
  unfold EXPECTED_VOID
  rw [h]

/-- Witness for C1: EXPECTED_VOID applied to a computation producing the
error message "disk full" prints "disk full" and a newline to the standard
output stream and exits with status 1. -/
theorem expected_void_error_prints_and_exits_witness :
    EXPECTED_VOID (fun s : Unit => (s, Except.error "disk full")) () =
      ((),
        { stdout := "disk full" ++ "\n", stderr := "", outcome := Outcome.exited 1 }) :=
  expected_void_error_prints_and_exits (fun s : Unit => (s, Except.error "disk full")) ()
    "disk full" rfl

/-- Claim C2: in a debug build, for the null pointer value, ENSURE_INIT
writes to the error stream exactly the single diagnostic line
[file:line] Uninitialised pointer: exprText (value=addr) — built from the
source file name, the source line number, the textual argument expression and
the rendered pointer value — writes nothing to the standard output stream,
and terminates the process via abnormal abort, not normal exit. -/
theorem ensure_init_null_diagnostic_abort {σ : Type} (file : String) (line : Nat)
    (exprText : String) (s : σ) :
    ENSURE_INIT_debug file line exprText (fun s => (s, 0)) s =
      (s,
        { stdout := ""
          stderr := "[" ++ file ++ ":" ++ toString line ++ "] Uninitialised pointer: "
            ++ exprText ++ " (value=" ++ ptrFmt 0 ++ ")\n"
          outcome := Outcome.aborted }) := by
  unfold ENSURE_INIT_debug ensureInitDiag
  simp

/-- Claim C3: EXPECTED_VOID evaluates its argument computation exactly once
whatever the outcome: for every argument computation, the state it leaves
behind is the state after exactly one application of the argument. -/
theorem expected_void_single_evaluation {σ : Type}
    (expr : σ → σ × Except String Unit) (s : σ) :
    (EXPECTED_VOID expr s).1 = (expr s).1 := by
  unfold EXPECTED_VOID
  cases h : (expr s).2 <;> simp

/-- Claim C4: in a debug build, for every non-null pointer value, ENSURE_INIT
neither aborts nor exits, prints nothing on either stream, and leaves the
state unchanged. -/
theorem ensure_init_nonnull_no_effect {σ : Type} (file : String) (line : Nat)
    (exprText : String) (s : σ) (p : Nat) (h : p ≠ 0) :
    ENSURE_INIT_debug file line exprText (fun s => (s, p)) s = (s, noEffect) := by
  unfold ENSURE_INIT_debug
  simp [h]

/-- Witness for C4: the guard with pointer value 1 at a concrete call site
has no effect. -/
theorem ensure_init_nonnull_no_effect_witness :
    ENSURE_INIT_debug "editor.cpp" 10 "buf" (fun s : Unit => (s, 1)) () =
      ((), noEffect) :=
  ensure_init_nonnull_no_effect "editor.cpp" 10 "buf" () 1 (by decide)

/-- Claim C5: for every argument computation whose resulting value is a
success, EXPECTED_VOID prints nothing on either stream and does not terminate
the process; the only state change is the single evaluation of the argument
itself, so for a pure success value all observable state is unchanged. -/
theorem expected_void_ok_silent {σ : Type}
    (expr : σ → σ × Except String Unit) (s : σ)
    (h : (expr s).2 = Except.ok ()) :
    EXPECTED_VOID expr s = ((expr s).1, noEffect) := by
  unfold EXPECTED_VOID
  rw [h]

/-- Witness for C5: EXPECTED_VOID on a pure success value leaves the state
unchanged and has no effect. -/
theorem expected_void_ok_silent_witness :
    EXPECTED_VOID (fun s : Nat => (s, Except.ok ())) 5 = (5, noEffect) :=
  expected_void_ok_silent (fun s : Nat => (s, Except.ok ())) 5 rfl

/-- Claim C6: in a release build, ENSURE_INIT is a complete no-op for every
argument computation and every state: the argument is never evaluated, the
state is returned unchanged, nothing is printed, and the process neither
aborts nor exits — indistinguishable from removing the call entirely. -/
theorem ensure_init_release_noop {σ : Type} (ptr : σ → σ × Nat) (s : σ) :
    ENSURE_INIT_release ptr s = (s, noEffect) :=
  rfl

/-- Counterexample for C7: toggling NOEXCEPT_ENABLED is observable at run
time on a routine whose body raises: with the flag undefined the declared
non-throwing guarantee makes the invocation terminate the process, with the
flag defined the failure propagates, so the two builds are not
observationally equivalent on every input. -/
theorem noexcept_toggle_not_equivalent :
    invoke (NOEXCEPT false) (Except.error "boom") ≠
      invoke (NOEXCEPT true) (Except.error "boom") := by
  decide

/-- Claim C7 (amended): toggling NOEXCEPT_ENABLED changes only the declared
exception specification; on every input whose body returns normally the two
builds behave identically, while on a body that raises, the build with the
guarantee (flag undefined) terminates abnormally and the build without it
(flag defined) lets the failure propagate. -/
theorem noexcept_toggle_amended :
    (∀ b₁ b₂ : Bool,
        invoke (NOEXCEPT b₁) (Except.ok ()) = invoke (NOEXCEPT b₂) (Except.ok ())) ∧
    (∀ e : String,
        invoke (NOEXCEPT false) (Except.error e) = InvokeResult.terminated ∧
        invoke (NOEXCEPT true) (Except.error e) = InvokeResult.raised e) := by
  constructor
  · intro b₁ b₂
    cases b₁ <;> cases b₂ <;> rfl
  · intro e
    exact ⟨rfl, rfl⟩

/-- Claim C8: the polarity of NOEXCEPT is inverted relative to its name: with
NOEXCEPT_ENABLED not defined the macro expands to the non-throwing guarantee,
and with NOEXCEPT_ENABLED defined it expands to nothing, leaving the error
behaviour unspecified. -/
theorem noexcept_polarity_inverted :
    NOEXCEPT false = ExceptionSpec.noexceptSpec ∧
      NOEXCEPT true = ExceptionSpec.unspecified :=
  ⟨rfl, rfl⟩

/-- Claim C9: in a debug build, for every argument computation whose first
evaluation yields null, ENSURE_INIT evaluates the argument a second time: the
final state is the state after two applications of the argument, and the
value printed in the diagnostic is the one produced by the second evaluation.
The concrete conjunct shows a side-effecting argument whose effects are
duplicated and whose second evaluation yields 42, which is the value printed
although the first evaluation yielded null. -/
theorem ensure_init_null_double_evaluation :
    (∀ (σ : Type) (ptr : σ → σ × Nat) (file exprText : String) (line : Nat) (s : σ),
        (ptr s).2 = 0 →
        ENSURE_INIT_debug file line exprText ptr s =
          ((ptr (ptr s).1).1,
            { stdout := ""
              stderr := ensureInitDiag file line exprText (ptr (ptr s).1).2
              outcome := Outcome.aborted })) ∧
    ENSURE_INIT_debug "m" 3 "q" (fun k => (k + 1, if k = 0 then 0 else 42)) 0 =
      (2,
        { stdout := ""
          stderr := ensureInitDiag "m" 3 "q" 42
          outcome := Outcome.aborted }) := by
  constructor
  · intro σ ptr file exprText line s h
    unfold ENSURE_INIT_debug
    simp [h]
  · decide

/-- Witness for C9: the general part applied to a counting argument that
yields null shows the counter advancing by two. -/
theorem ensure_init_null_double_evaluation_witness :
    ENSURE_INIT_debug "m" 3 "q" (fun k : Nat => (k + 1, 0)) 0 =
      (2,
        { stdout := ""
          stderr := ensureInitDiag "m" 3 "q" 0
          outcome := Outcome.aborted }) :=
  ensure_init_null_double_evaluation.1 Nat (fun k : Nat => (k + 1, 0)) "m" "q" 3 0 rfl

/-- Claim C10: the number of argument evaluations performed by ENSURE_INIT
differs between build modes: the debug expansion applies the argument exactly
once when the value is non-null and exactly twice when it is null, while the
release expansion never applies it; hence on a side-effecting argument with a
non-null value the two expansions already disagree on the resulting state. -/
theorem ensure_init_eval_count_modes :
    (∀ (σ : Type) (ptr : σ → σ × Nat) (file exprText : String) (line : Nat) (s : σ),
        (ptr s).2 ≠ 0 →
        (ENSURE_INIT_debug file line exprText ptr s).1 = (ptr s).1) ∧
    (∀ (σ : Type) (ptr : σ → σ × Nat) (file exprText : String) (line : Nat) (s : σ),
        (ptr s).2 = 0 →
        (ENSURE_INIT_debug file line exprText ptr s).1 = (ptr (ptr s).1).1) ∧
    (∀ (σ : Type) (ptr : σ → σ × Nat) (s : σ), (ENSURE_INIT_release ptr s).1 = s) ∧
    (ENSURE_INIT_debug "m" 7 "p" (fun k : Nat => (k + 1, 1)) 0).1 ≠
      (ENSURE_INIT_release (fun k : Nat => (k + 1, 1)) 0).1 := by
  refine ⟨?_, ?_, ?_, ?_⟩
  · intro σ ptr file exprText line s h
    unfold ENSURE_INIT_debug
    simp [h]
  · intro σ ptr file exprText line s h
    unfold ENSURE_INIT_debug
    simp [h]
  · intro σ ptr s
    rfl
  · decide

/-- Witness for C10: at a concrete side-effecting argument, the debug
expansion advances the counter once for a non-null value and twice for a null
value, and the release expansion leaves it untouched. -/
theorem ensure_init_eval_count_modes_witness :
    (ENSURE_INIT_debug "m" 7 "p" (fun k : Nat => (k + 1, 1)) 0).1 = 1 ∧
    (ENSURE_INIT_debug "m" 7 "p" (fun k : Nat => (k + 1, 0)) 0).1 = 2 ∧
    (ENSURE_INIT_release (fun k : Nat => (k + 1, 1)) 0).1 = 0 := by
  refine ⟨?_, ?_, ?_⟩
  · have h := ensure_init_eval_count_modes.1 Nat (fun k : Nat => (k + 1, 1))
      "m" "p" 7 0 (by decide)
    simpa using h
  · have h := ensure_init_eval_count_modes.2.1 Nat (fun k : Nat => (k + 1, 0))
      "m" "p" 7 0 rfl
    simpa using h
  · exact ensure_init_eval_count_modes.2.2.1 Nat (fun k : Nat => (k + 1, 1)) 0
